import Mathlib

/-!
Verification of the dynamic plugin compilation subsystem of OOpenCal-Viewer
(`CppModuleBuilder`: toolchain resolution, compile-command synthesis, process
execution with progress streaming, artifact verification) and of the
`SceneWidgetVisualizerAdapter` forwarding wrapper.

The C++ code is shallowly embedded: the filesystem, the environment variables,
the `--version` probe and the child-process runner are explicit parameters
(records of functions), so every C++ function becomes a pure, executable Lean
function.  Observable side effects (which compilers were probed, which commands
were handed to the process runner, which progress-callback messages were
emitted) are returned in an explicit `Trace`.
-/

namespace OOpenCalViewer

/-! ## String helpers mirroring the `std::string` operations used by the code -/

/-- Character-list core of `std::string::find(pat) != npos`. -/
def hasInfixChars (pat : List Char) : List Char → Bool
  | [] => pat.isEmpty
  | c :: rest => pat.isPrefixOf (c :: rest) || hasInfixChars pat rest

/-- Test for `s.find(pat) != std::string::npos`: `pat` occurs as a contiguous substring of `s`. -/
def containsSub (s pat : String) : Bool :=
  hasInfixChars pat.data s.data

/-- Boolean emptiness test on strings (mirrors `std::string::empty`). -/
def strIsEmpty (s : String) : Bool :=
  s.data.isEmpty

/-- Whether `p` is a literal prefix of `s` (character-wise). -/
def strStartsWith (s p : String) : Bool :=
  p.data.isPrefixOf s.data

/-- Compute `s.substr(0, s.find_last_of('/'))`: everything strictly before the last `/`
    (the whole string when `s` has no slash, matching `npos` semantics). -/
def cutAtLastSlash (s : String) : String :=
  if s.data.contains '/' then
    String.mk (((s.data.reverse.dropWhile (fun c => c != '/')).drop 1).reverse)
  else s

/-! ## Filesystem and process environment, as explicit parameters -/

/-- Read-only view of the filesystem operations `CppModuleBuilder` performs
    (`fs::exists`, `fs::is_regular_file`, `std::ifstream{..}.good()`,
    `opendir`/`readdir` where a directory entry is a name paired with
    `d_type == DT_DIR`). -/
structure FileSystem where
  pathExists : String → Bool
  isRegularFile : String → Bool
  fileReadable : String → Bool
  openDir : String → Option (List (String × Bool))

/-- Embeds `CppModuleBuilder::moduleExists`: the output artifact exists as a regular file. -/
def moduleExists (fs : FileSystem) (outputPath : String) : Bool :=
  fs.pathExists outputPath && fs.isRegularFile outputPath

/-- One chunk of child-process output, tagged with the stream it arrived on
    (the two `TinyProcessLib::Process` callbacks). -/
inductive OutputEvent where
  | out (line : String)
  | err (line : String)
deriving DecidableEq, Repr

/-- Behaviour of one child-process execution: whether the process could be
    launched at all (`launched = false` models the `TinyProcessLib` constructor
    throwing), its exit status (process exit statuses are non-negative), the
    interleaved stream of output chunks, and the state of the filesystem after
    the process has run. -/
structure RunResult where
  launched : Bool
  exitCode : Nat
  events : List OutputEvent
  fsAfter : FileSystem

/-- Ambient execution environment of `CppModuleBuilder`: the two
    `CLANG_TOOLCHAIN_PATH` sources (environment variable and CMake compile
    definition), the `OOPENCAL_VIEWER_ROOT` environment variable, the
    filesystem, the behaviour of `system("<compiler> --version")` probes
    (`probe c` is the probe's exit status), `fs::absolute` (`none` models the
    call throwing), the process runner, the CMake-provided `VTK_COMPILE_FLAGS`
    string and the host's `__cplusplus` value. -/
structure BuilderEnv where
  clangEnvPath : Option String
  clangCMakeDef : Option String
  viewerRootEnv : Option String
  fs : FileSystem
  probe : String → Int
  absolutize : String → Option String
  run : String → RunResult
  vtkCompileFlags : String
  hostCplusplus : Nat

/-! ## Toolchain resolution (`detectCppStandard`, `getClangToolchainPath`,
`isCompilerAvailable`, `findAvailableCompiler`) -/

/-- Embeds `detectCppStandard`: the user-provided standard if non-empty, otherwise the
    newest standard implied by the host build's `__cplusplus` value. -/
def detectCppStandard (userStandard : String) (hostCplusplus : Nat) : String :=
  if userStandard ≠ "" then userStandard
  else if hostCplusplus ≥ 202302 then "c++23"
  else if hostCplusplus ≥ 202002 then "c++20"
  else if hostCplusplus ≥ 201703 then "c++17"
  else "c++14"

/-- Fixed relative/absolute AppImage locations checked by `getClangToolchainPath`. -/
def appImagePaths : List String :=
  ["../usr/bin/clang++", "../../usr/bin/clang++", "/usr/local/bin/clang++", "/opt/clang/bin/clang++"]

/-- One configured bundled-toolchain source (env var or CMake definition): the
    directory is used only when it is non-empty and `<dir>/clang++` exists. -/
def tryToolchainDir (fs : FileSystem) (configuredPath : Option String) : Option String :=
  match configuredPath with
  | some path =>
      if path ≠ "" ∧ fs.pathExists (path ++ "/clang++") = true then some (path ++ "/clang++")
      else none
  | none => none

/-- Embeds `getClangToolchainPath`: bundled `clang++` from the runtime environment
    variable, else from the CMake compile definition, else from the fixed
    AppImage locations; empty string when none is found. -/
def getClangToolchainPath (clangEnvPath clangCMakeDef : Option String) (fs : FileSystem) : String :=
  match tryToolchainDir fs clangEnvPath with
  | some p => p
  | none =>
    match tryToolchainDir fs clangCMakeDef with
    | some p => p
    | none =>
      match appImagePaths.find? fs.pathExists with
      | some p => p
      | none => ""

/-- Embeds `isCompilerAvailable`: `system("<compiler> --version") == 0`. -/
def isCompilerAvailable (probe : String → Int) (compiler : String) : Bool :=
  probe compiler == 0

/-- Fixed ordered fallback list of `findAvailableCompiler`. -/
def fallbackCompilers : List String := ["g++", "clang++", "c++"]

/-- The fallback loop of `findAvailableCompiler`; also returns the list of
    compilers actually probed, in order. -/
def findCompilerLoop (probe : String → Int) (preferredCompiler : String) :
    List String → String × List String
  | [] => ("", [])
  | compiler :: rest =>
    if compiler ≠ preferredCompiler then
      if isCompilerAvailable probe compiler then (compiler, [compiler])
      else
        let r := findCompilerLoop probe preferredCompiler rest
        (r.1, compiler :: r.2)
    else findCompilerLoop probe preferredCompiler rest

/-- Embeds `findAvailableCompiler`: probe the preferred compiler, then the fallback
    list (skipping the preferred name); `""` when nothing probes successfully.
    The second component is the ordered list of probed compilers. -/
def findAvailableCompiler (probe : String → Int) (preferredCompiler : String) :
    String × List String :=
  if isCompilerAvailable probe preferredCompiler then (preferredCompiler, [preferredCompiler])
  else
    let r := findCompilerLoop probe preferredCompiler fallbackCompilers
    (r.1, preferredCompiler :: r.2)

/-! ## Compile-command synthesis (`CppModuleBuilder::buildCompileCommand`)

The command string is assembled left to right exactly as the `std::ostringstream`
in the source; every conditional block of the source becomes one segment
definition.  The AppImage test used throughout the source is the substring test
`compilerPath.find(".mount_") != npos || compilerPath.find("/tmp/") != npos`. -/

/-- The source's AppImage/bundled-toolchain classification of a compiler path. -/
def isAppImagePath (compilerPath : String) : Bool :=
  containsSub compilerPath ".mount_" || containsSub compilerPath "/tmp/"

/-- Mount point extracted from the compiler path: three times
    `substr(0, find_last_of('/'))` (drop binary name, `/bin`, `/usr`). -/
def mountPointOf (compilerPath : String) : String :=
  cutAtLastSlash (cutAtLastSlash (cutAtLastSlash compilerPath))

/-- The library search path injected for a relocated bundled toolchain. -/
def ldLibraryPathValue (compilerPath : String) : String :=
  let basePath := cutAtLastSlash compilerPath
  basePath ++ "/../lib/clang-libs:" ++ basePath ++ "/../lib"

/-- The `LD_LIBRARY_PATH=...` environment prefix wrapped in front of the
    command for an AppImage compiler; empty otherwise. -/
def ldPrefixSegment (compilerPath : String) : String :=
  if isAppImagePath compilerPath then
    "LD_LIBRARY_PATH=\"" ++ ldLibraryPathValue compilerPath ++ ":$LD_LIBRARY_PATH\" "
  else ""

/-- Flags `-nostdinc` and `-nostdinc++` for header isolation, emitted only for AppImage compilers. -/
def isolationFlagsSegment (compilerPath : String) : String :=
  if isAppImagePath compilerPath then " -nostdinc" ++ " -nostdinc++" else ""

/-- The ordered bundled system-include directories (musl C headers, libc++
    headers, platform config, LLVM intrinsics, bundled GCC fallbacks). -/
def appImageSysIncludeDirs (compilerPath : String) : List String :=
  let mountPoint := mountPointOf compilerPath
  let appIncludePath := mountPoint ++ "/usr/include"
  let clangIncludePath := mountPoint ++ "/usr/lib/clang/21/include"
  let gccIncludePath14 := mountPoint ++ "/usr/lib/gcc/x86_64-linux-gnu/14/include"
  let gccIncludeFixedPath14 := mountPoint ++ "/usr/lib/gcc/x86_64-linux-gnu/14/include-fixed"
  let gccIncludePath15 := mountPoint ++ "/usr/lib64/gcc/x86_64-pc-linux-gnu/15.2.1/include"
  let gccIncludeFixedPath15 := mountPoint ++ "/usr/lib64/gcc/x86_64-pc-linux-gnu/15.2.1/include-fixed"
  [appIncludePath,
   appIncludePath ++ "/x86_64-linux-gnu",
   appIncludePath ++ "/c++/v1",
   appIncludePath ++ "/c++",
   appIncludePath ++ "/x86_64-unknown-linux-gnu/c++/v1",
   clangIncludePath,
   gccIncludePath14, gccIncludeFixedPath14, gccIncludePath15, gccIncludeFixedPath15]

/-- One `-isystem "<dir>"` flag. -/
def isystemFlag (dir : String) : String := " -isystem \"" ++ dir ++ "\""

/-- Left-to-right concatenation of a list of strings (`operator<<` chain). -/
def concatAll (l : List String) : String := l.foldl (fun r x => r ++ x) ""

/-- The bundled system-include block, emitted only for AppImage compilers. -/
def appImageSysIncludeSegment (compilerPath : String) : String :=
  if isAppImagePath compilerPath then
    concatAll ((appImageSysIncludeDirs compilerPath).map isystemFlag)
  else ""

/-- OOpenCAL domain-library includes. -/
def oopencalIncludeSegment (oopencalDir : String) : String :=
  if oopencalDir ≠ "" then
    " -I\"" ++ oopencalDir ++ "/OOpenCAL/base\"" ++ " -I\"" ++ oopencalDir ++ "\""
  else ""

/-- Host-application project includes: from the builder's `projectRootPath` when
    set, else from the `OOPENCAL_VIEWER_ROOT` environment variable. -/
def projectIncludeSegment (projectRootPath : String) (viewerRootEnv : Option String) : String :=
  if projectRootPath ≠ "" then
    " -I\"" ++ projectRootPath ++ "\"" ++ " -I\"" ++ projectRootPath ++ "/visualiserProxy\"" ++
    " -I\"" ++ projectRootPath ++ "/config\""
  else
    match viewerRootEnv with
    | some viewerRootPath =>
      if viewerRootPath ≠ "" then
        " -I\"" ++ viewerRootPath ++ "\"" ++ " -I\"" ++ viewerRootPath ++ "/visualiserProxy\"" ++
        " -I\"" ++ viewerRootPath ++ "/config\"" ++ " -I\"" ++ viewerRootPath ++ "/utilities\"" ++
        " -I\"" ++ viewerRootPath ++ "/visualiser\"" ++ " -I\"" ++ viewerRootPath ++ "/widgets\""
      else ""
    | none => ""

/-- VTK headers: from the AppImage mount for an AppImage compiler, otherwise
    the host's `/usr/include/vtk-9.1`. -/
def vtkIncludeSegment (compilerPath : String) : String :=
  if isAppImagePath compilerPath then
    " -I\"" ++ (mountPointOf compilerPath ++ "/usr/include") ++ "/vtk-9.1\""
  else " -I/usr/include/vtk-9.1"

/-- First character is not `.` (mirrors `d_name[0] != '.'`). -/
def firstCharNotDot (s : String) : Bool :=
  match s.data with
  | [] => true
  | c :: _ => c != '.'

/-- Locate the bundled clang intrinsics directory: version 17 when its
    `stddef.h` is readable, else the first non-hidden subdirectory of
    `<mount>/usr/lib/clang` in directory order, else the version-17 default. -/
def findClangIntrinsicsPath (fs : FileSystem) (mountPoint : String) : String :=
  let clangIntrinsicsPath := mountPoint ++ "/usr/lib/clang/17/include"
  if fs.fileReadable (clangIntrinsicsPath ++ "/stddef.h") then clangIntrinsicsPath
  else
    let clangLibPath := mountPoint ++ "/usr/lib/clang"
    match fs.openDir clangLibPath with
    | none => clangIntrinsicsPath
    | some entries =>
      match entries.find? (fun e => e.2 && firstCharNotDot e.1) with
      | some e => clangLibPath ++ "/" ++ e.1 ++ "/include"
      | none => clangIntrinsicsPath

/-- The static-clang intrinsics `-isystem` flag, emitted only for AppImage compilers. -/
def clangIntrinsicsSegment (fs : FileSystem) (compilerPath : String) : String :=
  if isAppImagePath compilerPath then
    isystemFlag (findClangIntrinsicsPath fs (mountPointOf compilerPath))
  else ""

/-- Project headers bundled inside the AppImage, emitted only for AppImage compilers. -/
def bundledHeadersSegment (compilerPath : String) : String :=
  if isAppImagePath compilerPath then
    " -I\"" ++ (mountPointOf compilerPath ++ "/usr/include") ++ "\"" ++
    " -I\"" ++ (mountPointOf compilerPath ++ "/usr/include") ++ "/visualiserProxy\"" ++
    " -I\"" ++ (mountPointOf compilerPath ++ "/usr/include") ++ "/config\"" ++
    " -I\"" ++ (mountPointOf compilerPath ++ "/usr/include") ++ "/utilities\"" ++
    " -I\"" ++ (mountPointOf compilerPath ++ "/usr/include") ++ "/visualiser\"" ++
    " -I\"" ++ (mountPointOf compilerPath ++ "/usr/include") ++ "/widgets\""
  else ""

/-- Everything the synthesizer emits after the compiler executable itself. -/
def afterCompilerPart (fs : FileSystem) (viewerRootEnv : Option String) (vtkCompileFlags : String)
    (compilerPath oopencalDir projectRootPath sourceFile outputFile cppStandard : String)
    (hostCplusplus : Nat) : String :=
  " -shared" ++ " -fPIC" ++ " -std=" ++ detectCppStandard cppStandard hostCplusplus ++
  isolationFlagsSegment compilerPath ++
  appImageSysIncludeSegment compilerPath ++
  oopencalIncludeSegment oopencalDir ++
  projectIncludeSegment projectRootPath viewerRootEnv ++
  vtkIncludeSegment compilerPath ++
  clangIntrinsicsSegment fs compilerPath ++
  bundledHeadersSegment compilerPath ++
  " " ++ vtkCompileFlags ++
  " \"" ++ sourceFile ++ "\"" ++ " -o \"" ++ outputFile ++ "\""

/-- Embeds `CppModuleBuilder::buildCompileCommand`: optional `LD_LIBRARY_PATH` prefix,
    then the compiler executable, then all flags and paths. -/
def buildCompileCommand (fs : FileSystem) (viewerRootEnv : Option String)
    (vtkCompileFlags : String)
    (compilerPath oopencalDir projectRootPath sourceFile outputFile cppStandard : String)
    (hostCplusplus : Nat) : String :=
  ldPrefixSegment compilerPath ++
  (compilerPath ++
   afterCompilerPart fs viewerRootEnv vtkCompileFlags compilerPath oopencalDir projectRootPath
     sourceFile outputFile cppStandard hostCplusplus)

/-! ## Process execution and progress streaming
(`CppModuleBuilder::executeCommand` and the two callback closures built inside
`CppModuleBuilder::compileModule`) -/

/-- Embeds `CompilationResult` (the fields of the struct populated by `compileModule`). -/
structure CompilationResult where
  success : Bool := false
  exitCode : Int := 0
  stdout : String := ""
  stderr : String := ""
  compileCommand : String := ""
  sourceFile : String := ""
  outputFile : String := ""
deriving DecidableEq, Repr

/-- Observable side effects of one `compileModule` call: compilers probed with
    `--version` (in order), the compiler finally stored back into
    `compilerPath` (`none` when resolution was never reached), the commands
    handed to the process runner, and the progress-callback messages (in order). -/
structure Trace where
  probes : List String := []
  chosen : Option String := none
  launches : List String := []
  progress : List String := []
deriving DecidableEq, Repr

/-- Mutable state threaded through the two output callbacks of `compileModule`:
    the accumulated `lastResult->stdout` / `lastResult->stderr` texts, the
    stdout line counter, and the progress messages emitted so far. -/
structure StreamState where
  stdoutAcc : String := ""
  stderrAcc : String := ""
  lineCount : Nat := 0
  progress : List String := []
deriving DecidableEq, Repr

/-- Initial stream state (fresh `lastResult`, `lineCount = 0`). -/
def initialStreamState : StreamState := {}

/-- The stdout callback closure of `compileModule`: append the chunk to
    `lastResult->stdout`; when a progress callback is installed and the chunk is
    non-empty, increment the line counter and report once every 5 lines. -/
def onStdoutLine (hasCallback : Bool) (s : StreamState) (line : String) : StreamState :=
  let s1 := { s with stdoutAcc := s.stdoutAcc ++ line ++ "\n" }
  if hasCallback ∧ line ≠ "" then
    let lc := s1.lineCount + 1
    if lc % 5 = 0 then
      { s1 with lineCount := lc,
                progress := s1.progress ++ ["Compiling... (" ++ toString lc ++ " lines)"] }
    else { s1 with lineCount := lc }
  else s1

/-- The stderr callback closure of `compileModule`: append the chunk to
    `lastResult->stderr`; a non-empty chunk is reported immediately. -/
def onStderrLine (hasCallback : Bool) (s : StreamState) (line : String) : StreamState :=
  let s1 := { s with stderrAcc := s.stderrAcc ++ line ++ "\n" }
  if hasCallback ∧ line ≠ "" then
    { s1 with progress := s1.progress ++ ["Error: " ++ line] }
  else s1

/-- Dispatch one output chunk to the matching callback. -/
def streamStep (hasCallback : Bool) (s : StreamState) (e : OutputEvent) : StreamState :=
  match e with
  | OutputEvent.out line => onStdoutLine hasCallback s line
  | OutputEvent.err line => onStderrLine hasCallback s line

/-- Fold the interleaved output stream through the two callbacks. -/
def processEvents (hasCallback : Bool) (s : StreamState) (events : List OutputEvent) : StreamState :=
  events.foldl (streamStep hasCallback) s

/-- Embeds `CppModuleBuilder::executeCommand`: run the command, feeding each output
    chunk to the corresponding callback, and return the exit status; when the
    process cannot be launched (`TinyProcessLib` throws) return the sentinel
    `-1` with the callbacks never invoked. -/
def executeCommand {σ : Type} (rr : RunResult) (s0 : σ)
    (stdoutCallback : σ → String → σ) (stderrCallback : σ → String → σ) : Int × σ :=
  if rr.launched then
    (Int.ofNat rr.exitCode,
     rr.events.foldl
       (fun s e =>
         match e with
         | OutputEvent.out line => stdoutCallback s line
         | OutputEvent.err line => stderrCallback s line) s0)
  else (-1, s0)

/-! ## The compilation orchestrator (`CppModuleBuilder::compileModule`) -/

/-- The relevant state of a `CppModuleBuilder` object: the constructor-supplied
    preferred compiler, the OOpenCAL directory, the project root path, and
    whether a progress callback is installed. -/
structure CppModuleBuilder where
  compilerPath : String
  oopencalDir : String
  projectRootPath : String := ""
  hasProgressCallback : Bool := false

/-- Continuation of `compileModule` once the compiler has been resolved
    (source from the `availableCompiler.empty()` check onwards): fail without
    launching anything when no compiler was found; otherwise store the chosen
    compiler into `compilerPath`, synthesize the command, run it streaming
    output through the two callbacks, and compute `success` from the exit code
    and the on-disk artifact. -/
def compileWithCompiler (env : BuilderEnv) (b : CppModuleBuilder) (r0 : CompilationResult)
    (sourceFile outputFile cppStandard availableCompiler : String)
    (probes : List String) (progressSoFar : List String) : CompilationResult × Trace :=
  if availableCompiler = "" then
    ({ r0 with success := false,
               stderr := "No C++ compiler found. Please install clang++, g++, or c++.",
               compileCommand := b.compilerPath ++ " (not found)" },
     { probes := probes, chosen := some availableCompiler, launches := [],
       progress := progressSoFar ++
         (if b.hasProgressCallback then ["ERROR: No C++ compiler found"] else []) })
  else
    let compilerPath := availableCompiler
    let progress2 := progressSoFar ++
      (if b.hasProgressCallback then ["Preparing compilation command..."] else [])
    let cmd := buildCompileCommand env.fs env.viewerRootEnv env.vtkCompileFlags compilerPath
      b.oopencalDir b.projectRootPath sourceFile outputFile cppStandard env.hostCplusplus
    let progress3 := progress2 ++
      (if b.hasProgressCallback then ["Compilation of module ..."] else [])
    let rr := env.run cmd
    let ec := executeCommand rr initialStreamState
      (onStdoutLine b.hasProgressCallback) (onStderrLine b.hasProgressCallback)
    let exitCode := ec.1
    let st := ec.2
    let r1 := { r0 with compileCommand := cmd, exitCode := exitCode,
                        stdout := st.stdoutAcc, stderr := st.stderrAcc }
    let tr : Trace :=
      { probes := probes, chosen := some availableCompiler, launches := [cmd],
        progress := progress3 ++ st.progress }
    if exitCode = 0 ∧ moduleExists rr.fsAfter outputFile = true then
      ({ r1 with success := true }, tr)
    else
      ({ r1 with success := false }, tr)

/-- Embeds `CppModuleBuilder::compileModule`: fail fast when the source file is
    missing; otherwise resolve the toolchain — a bundled AppImage clang is used
    directly (resolved to an absolute path, falling back to the relative path
    when `fs::absolute` throws) without any probe, else compilers are probed —
    and continue with `compileWithCompiler`. -/
def compileModule (env : BuilderEnv) (b : CppModuleBuilder)
    (sourceFile outputFile cppStandard : String) : CompilationResult × Trace :=
  let r0 : CompilationResult := { sourceFile := sourceFile, outputFile := outputFile }
  if env.fs.pathExists sourceFile = false then
    ({ r0 with success := false, stderr := "Source file does not exist: " ++ sourceFile }, {})
  else
    let progress1 : List String :=
      if b.hasProgressCallback then ["Checking C++ compiler availability..."] else []
    let clangFromAppImage := getClangToolchainPath env.clangEnvPath env.clangCMakeDef env.fs
    if clangFromAppImage ≠ "" then
      let usingMsg :=
        if b.hasProgressCallback then ["Using clang from AppImage: " ++ clangFromAppImage] else []
      let availableCompiler := (env.absolutize clangFromAppImage).getD clangFromAppImage
      compileWithCompiler env b r0 sourceFile outputFile cppStandard availableCompiler []
        (progress1 ++ usingMsg)
    else
      let fc := findAvailableCompiler env.probe b.compilerPath
      compileWithCompiler env b r0 sourceFile outputFile cppStandard fc.1 fc.2 progress1

/-! ## The adapter (`SceneWidgetVisualizerAdapter<Cell>`)

The wrapped `SceneWidgetVisualizerTemplate<Cell>` lives behind the adapter as an
opaque implementation: its state is the record of its three sub-objects
(`p`, `modelReader`, `visualiser`), and the behaviour of its methods for the
concrete `Cell` instantiation is a record of functions.  The argument types of
the interface (`SettingParameter*`, `Line*`, VTK renderer/actor handles) are
type parameters.  Each adapter method is the literal forwarding performed by
`SceneWidgetVisualizerAdapter.h`. -/

/-- State of a `SceneWidgetVisualizerTemplate<Cell>` object: its matrix `p`,
    its `modelReader` and its `visualiser` sub-objects. -/
structure SceneWidgetVisualizerTemplate (Mat MR Vis : Type) where
  p : Mat
  modelReader : MR
  visualiser : Vis

/-- Behaviour of the wrapped implementation's own methods (for one `Cell`). -/
structure TemplateOps (Mat MR Vis : Type) where
  initMatrix : SceneWidgetVisualizerTemplate Mat MR Vis → Int → Int →
    SceneWidgetVisualizerTemplate Mat MR Vis

/-- Behaviour of the wrapped implementation's `modelReader` methods.
    `readStageStateFromFilesForStep` receives the template's matrix `p` and may
    update both the reader state and the matrix. -/
structure ModelReaderOps (MR Mat SP L : Type) where
  prepareStage : MR → Int → Int → MR
  clearStage : MR → MR
  readStepsOffsetsForAllNodesFromFiles : MR → Int → Int → String → MR
  readStageStateFromFilesForStep : MR → Mat → SP → L → MR × Mat
  availableSteps : MR → List Nat

/-- Behaviour of the wrapped implementation's `visualiser` methods; both receive
    the template's matrix `p` together with the caller's arguments. -/
structure VisualizerOps (Vis Mat Rend Act : Type) where
  drawWithVTK : Vis → Mat → Int → Int → Rend → Act → Vis
  refreshWindowsVTK : Vis → Mat → Int → Int → Act → Vis

/-- Embeds `SceneWidgetVisualizerAdapter<Cell>`: the wrapped template instance plus the
    `const` model name supplied at construction. -/
structure SceneWidgetVisualizerAdapter (Mat MR Vis : Type) where
  m_impl : SceneWidgetVisualizerTemplate Mat MR Vis
  m_modelName : String

namespace SceneWidgetVisualizerAdapter

variable {Mat MR Vis SP L Rend Act : Type}

/-- The constructor: store the model name; `m_impl` is default-constructed
    (the default value is passed explicitly here). -/
def construct (impl0 : SceneWidgetVisualizerTemplate Mat MR Vis) (modelName : String) :
    SceneWidgetVisualizerAdapter Mat MR Vis :=
  { m_impl := impl0, m_modelName := modelName }

def initMatrix (tops : TemplateOps Mat MR Vis) (a : SceneWidgetVisualizerAdapter Mat MR Vis)
    (dimX dimY : Int) : SceneWidgetVisualizerAdapter Mat MR Vis :=
  { a with m_impl := tops.initMatrix a.m_impl dimX dimY }

def prepareStage (mrops : ModelReaderOps MR Mat SP L)
    (a : SceneWidgetVisualizerAdapter Mat MR Vis) (nNodeX nNodeY : Int) :
    SceneWidgetVisualizerAdapter Mat MR Vis :=
  { a with m_impl :=
      { a.m_impl with modelReader := mrops.prepareStage a.m_impl.modelReader nNodeX nNodeY } }

def clearStage (mrops : ModelReaderOps MR Mat SP L)
    (a : SceneWidgetVisualizerAdapter Mat MR Vis) :
    SceneWidgetVisualizerAdapter Mat MR Vis :=
  { a with m_impl := { a.m_impl with modelReader := mrops.clearStage a.m_impl.modelReader } }

def readStepsOffsetsForAllNodesFromFiles (mrops : ModelReaderOps MR Mat SP L)
    (a : SceneWidgetVisualizerAdapter Mat MR Vis) (nNodeX nNodeY : Int) (filename : String) :
    SceneWidgetVisualizerAdapter Mat MR Vis :=
  { a with m_impl :=
      { a.m_impl with modelReader :=
          mrops.readStepsOffsetsForAllNodesFromFiles a.m_impl.modelReader nNodeX nNodeY filename } }

def readStageStateFromFilesForStep (mrops : ModelReaderOps MR Mat SP L)
    (a : SceneWidgetVisualizerAdapter Mat MR Vis) (sp : SP) (lines : L) :
    SceneWidgetVisualizerAdapter Mat MR Vis :=
  let r := mrops.readStageStateFromFilesForStep a.m_impl.modelReader a.m_impl.p sp lines
  { a with m_impl := { a.m_impl with modelReader := r.1, p := r.2 } }

def drawWithVTK (vops : VisualizerOps Vis Mat Rend Act)
    (a : SceneWidgetVisualizerAdapter Mat MR Vis) (nRows nCols : Int)
    (renderer : Rend) (gridActor : Act) : SceneWidgetVisualizerAdapter Mat MR Vis :=
  { a with m_impl :=
      { a.m_impl with visualiser :=
          vops.drawWithVTK a.m_impl.visualiser a.m_impl.p nRows nCols renderer gridActor } }

def refreshWindowsVTK (vops : VisualizerOps Vis Mat Rend Act)
    (a : SceneWidgetVisualizerAdapter Mat MR Vis) (nRows nCols : Int) (gridActor : Act) :
    SceneWidgetVisualizerAdapter Mat MR Vis :=
  { a with m_impl :=
      { a.m_impl with visualiser :=
          vops.refreshWindowsVTK a.m_impl.visualiser a.m_impl.p nRows nCols gridActor } }

def getModelName (a : SceneWidgetVisualizerAdapter Mat MR Vis) : String :=
  a.m_modelName

def availableSteps (mrops : ModelReaderOps MR Mat SP L)
    (a : SceneWidgetVisualizerAdapter Mat MR Vis) : List Nat :=
  mrops.availableSteps a.m_impl.modelReader

end SceneWidgetVisualizerAdapter

/-- One call through the `ISceneWidgetVisualizer` interface (the state-mutating
    operations; `getModelName` and `availableSteps` are read-only queries). -/
inductive AdapterCall (SP L Rend Act : Type) where
  | initMatrix (dimX dimY : Int)
  | prepareStage (nNodeX nNodeY : Int)
  | clearStage
  | readStepsOffsets (nNodeX nNodeY : Int) (filename : String)
  | readStageState (sp : SP) (lines : L)
  | draw (nRows nCols : Int) (renderer : Rend) (gridActor : Act)
  | refresh (nRows nCols : Int) (gridActor : Act)

/-- Interpret one interface call on the adapter. -/
def applyAdapterCall {Mat MR Vis SP L Rend Act : Type}
    (tops : TemplateOps Mat MR Vis) (mrops : ModelReaderOps MR Mat SP L)
    (vops : VisualizerOps Vis Mat Rend Act)
    (a : SceneWidgetVisualizerAdapter Mat MR Vis) :
    AdapterCall SP L Rend Act → SceneWidgetVisualizerAdapter Mat MR Vis
  | AdapterCall.initMatrix dimX dimY => a.initMatrix tops dimX dimY
  | AdapterCall.prepareStage x y => a.prepareStage mrops x y
  | AdapterCall.clearStage => a.clearStage mrops
  | AdapterCall.readStepsOffsets x y f => a.readStepsOffsetsForAllNodesFromFiles mrops x y f
  | AdapterCall.readStageState sp lines => a.readStageStateFromFilesForStep mrops sp lines
  | AdapterCall.draw r c rend act => a.drawWithVTK vops r c rend act
  | AdapterCall.refresh r c act => a.refreshWindowsVTK vops r c act

/-- Interpret a whole sequence of interface calls. -/
def applyAdapterCalls {Mat MR Vis SP L Rend Act : Type}
    (tops : TemplateOps Mat MR Vis) (mrops : ModelReaderOps MR Mat SP L)
    (vops : VisualizerOps Vis Mat Rend Act)
    (calls : List (AdapterCall SP L Rend Act))
    (a : SceneWidgetVisualizerAdapter Mat MR Vis) : SceneWidgetVisualizerAdapter Mat MR Vis :=
  calls.foldl (applyAdapterCall tops mrops vops) a

/-- The progress messages the stdout throttling emits for non-empty stdout
    lines numbered `c+1 … c+n` (one message at every cumulative multiple of 5). -/
def batchMessagesFrom (c n : Nat) : List String :=
  (List.range n).filterMap fun j =>
    if (c + j + 1) % 5 = 0 then some ("Compiling... (" ++ toString (c + j + 1) ++ " lines)")
    else none

/-- The command `compileModule` synthesizes once it has settled on compiler `ac`. -/
def builtCommand (env : BuilderEnv) (b : CppModuleBuilder)
    (ac sourceFile outputFile cppStandard : String) : String :=
  buildCompileCommand env.fs env.viewerRootEnv env.vtkCompileFlags ac b.oopencalDir
    b.projectRootPath sourceFile outputFile cppStandard env.hostCplusplus

/-- Exit code and final callback state of the execution phase of `compileModule`
    for command `cmd`. -/
def execPhase (env : BuilderEnv) (b : CppModuleBuilder) (cmd : String) : Int × StreamState :=
  executeCommand (env.run cmd) initialStreamState
    (onStdoutLine b.hasProgressCallback) (onStderrLine b.hasProgressCallback)

/-! ## Concrete fixtures (used by witness and counterexample theorems) -/

/-- A filesystem on which exactly the listed paths exist, all as regular
    readable files, with no readable directories. -/
def mkFS (files : List String) : FileSystem :=
  { pathExists := fun p => files.contains p,
    isRegularFile := fun p => files.contains p,
    fileReadable := fun p => files.contains p,
    openDir := fun _ => none }

/-- A process runner whose every execution launches, exits with the given
    status after emitting the given output, and leaves the given filesystem. -/
def mkRun (exitCode : Nat) (events : List OutputEvent) (fsAfter : FileSystem) :
    String → RunResult :=
  fun _ => { launched := true, exitCode := exitCode, events := events, fsAfter := fsAfter }

/-- A process runner that can never launch anything. -/
def mkNoLaunchRun : String → RunResult :=
  fun _ => { launched := false, exitCode := 0, events := [], fsAfter := mkFS [] }

/-- Environment with a bundled toolchain announced at `/opt/bundle` (a path with
    neither AppImage marker), every probe failing, and a run that exits 0
    producing no artifact. -/
def envBundledNoArtifact : BuilderEnv :=
  { clangEnvPath := some "/opt/bundle",
    clangCMakeDef := none,
    viewerRootEnv := none,
    fs := mkFS ["/opt/bundle/clang++", "src.cpp"],
    probe := fun _ => 1,
    absolutize := fun s => some s,
    run := mkRun 0 [] (mkFS []),
    vtkCompileFlags := "",
    hostCplusplus := 201703 }

/-- Environment with no bundled toolchain where only `g++` probes successfully. -/
def envOnlyGpp : BuilderEnv :=
  { clangEnvPath := none,
    clangCMakeDef := none,
    viewerRootEnv := none,
    fs := mkFS ["src.cpp"],
    probe := fun c => if c = "g++" then 0 else 1,
    absolutize := fun s => some s,
    run := mkRun 0 [] (mkFS []),
    vtkCompileFlags := "",
    hostCplusplus := 201703 }

/-- Environment with no bundled toolchain and every probe failing. -/
def envNoCompiler : BuilderEnv :=
  { envOnlyGpp with probe := fun _ => 1 }

/-- Environment with a bundled toolchain whose compilation process cannot be
    launched at all. -/
def envLaunchFailure : BuilderEnv :=
  { envBundledNoArtifact with run := mkNoLaunchRun }

/-- Environment with a bundled toolchain whose compilation emits 23 non-empty
    stdout chunks, then exits 0 without producing the artifact. -/
def envStdout23 : BuilderEnv :=
  { envBundledNoArtifact with run := mkRun 0 (List.replicate 23 (OutputEvent.out "x")) (mkFS []) }

/-- A builder with preferred compiler `clang++` and an installed progress callback. -/
def builderA : CppModuleBuilder :=
  { compilerPath := "clang++", oopencalDir := "/oo", projectRootPath := "",
    hasProgressCallback := true }

/-! ## String lemmas -/

/-- Appending strings: `(s ++ t).data` distributes over the underlying character lists. -/
theorem string_data_append : ∀ (s t : String), (s ++ t).data = s.data ++ t.data :=
  fun ⟨_⟩ ⟨_⟩ => rfl

/-- String append is associative. -/
theorem strAppend_assoc : ∀ (a b c : String), a ++ b ++ c = a ++ (b ++ c) :=
  fun ⟨a⟩ ⟨b⟩ ⟨c⟩ => congrArg String.mk (List.append_assoc a b c)

theorem hasInfixChars_append_right (pat l l' : List Char)
    (h : hasInfixChars pat l = true) : hasInfixChars pat (l ++ l') = true := by
  induction l with
  | nil =>
    simp [hasInfixChars] at h
    subst h
    cases l' with
    | nil => simp [hasInfixChars]
    | cons c rest => simp [hasInfixChars, List.isPrefixOf]
  | cons c rest ih =>
    simp only [hasInfixChars, Bool.or_eq_true] at h
    rcases h with h | h
    · simp only [hasInfixChars, List.cons_append, Bool.or_eq_true]
      refine Or.inl ?_
      rw [ List.isPrefixOf_iff_prefix] at h ⊢
      have h2 : pat <+: (c :: rest) ++ l' := h.trans (List.prefix_append _ _)
      simpa using h2
    · have := ih h
      simp only [hasInfixChars, List.cons_append, Bool.or_eq_true]
      exact Or.inr this

theorem hasInfixChars_append_left (pat l l' : List Char)
    (h : hasInfixChars pat l' = true) : hasInfixChars pat (l ++ l') = true := by
  induction l with
  | nil => simpa using h
  | cons c rest ih =>
    simp only [hasInfixChars, List.cons_append, Bool.or_eq_true]
    exact Or.inr ih

theorem containsSub_append_right (s t pat : String)
    (h : containsSub s pat = true) : containsSub (s ++ t) pat = true := by
  unfold containsSub at h ⊢
  rw [string_data_append]
  exact hasInfixChars_append_right _ _ _ h

theorem containsSub_append_left (s t pat : String)
    (h : containsSub t pat = true) : containsSub (s ++ t) pat = true := by
  unfold containsSub at h ⊢
  rw [string_data_append]
  exact hasInfixChars_append_left _ _ _ h

theorem strStartsWith_of_append (p t : String) :
    strStartsWith (p ++ t) p = true := by
  unfold strStartsWith
  rw [string_data_append, List.isPrefixOf_iff_prefix]
  exact List.prefix_append _ _

theorem strStartsWith_append_of_left (s t p : String) (h : strStartsWith s p = true) :
    strStartsWith (s ++ t) p = true := by
  unfold strStartsWith at h ⊢
  rw [string_data_append]
  rw [ List.isPrefixOf_iff_prefix] at h ⊢
  exact h.trans (List.prefix_append _ _)

theorem strStartsWith_append_left_of_le (s t p : String)
    (h : p.data.length ≤ s.data.length) :
    strStartsWith (s ++ t) p = strStartsWith s p := by
  unfold strStartsWith
  rw [string_data_append]
  cases hsp : p.data.isPrefixOf s.data
  · cases hst : p.data.isPrefixOf (s.data ++ t.data)
    · rfl
    · rw [ List.isPrefixOf_iff_prefix] at hst
      have := (List.isPrefix_append_of_length h).mp hst
      rw [← List.isPrefixOf_iff_prefix] at this
      rw [this] at hsp
      exact hsp
  · rw [ List.isPrefixOf_iff_prefix] at hsp
    have := hsp.trans (List.prefix_append s.data t.data)
    rw [← List.isPrefixOf_iff_prefix] at this
    rw [this]

theorem strIsEmpty_append_left (s t : String) (h : s.data ≠ []) :
    strIsEmpty (s ++ t) = false := by
  unfold strIsEmpty
  rw [string_data_append]
  cases hs : s.data with
  | nil => exact absurd hs h
  | cons c rest => simp [List.isEmpty]

theorem data_ne_nil_append_left (s t : String) (h : s.data ≠ []) :
    (s ++ t).data ≠ [] := by
  rw [string_data_append]
  intro hc
  exact h (List.append_eq_nil.mp hc).1

theorem concatAll_data : ∀ (l : List String),
    (concatAll l).data = (l.map String.data).flatten := by
  have aux : ∀ (l : List String) (s : String),
      (l.foldl (fun r x => r ++ x) s).data = s.data ++ (l.map String.data).flatten := by
    intro l
    induction l with
    | nil => intro s; simp
    | cons c rest ih =>
      intro s
      simp only [List.foldl_cons, List.map_cons, List.flatten]
      rw [ih, string_data_append, List.append_assoc]
  intro l
  have := aux l ""
  simpa [concatAll] using this

theorem strIsEmpty_concatAll_cons (x : String) (xs : List String) (hx : x.data ≠ []) :
    strIsEmpty (concatAll (x :: xs)) = false := by
  unfold strIsEmpty
  rw [concatAll_data]
  simp only [List.map_cons, List.flatten]
  cases hd : x.data with
  | nil => exact absurd hd hx
  | cons c rest => simp [List.isEmpty]

/-! ## Branch equations for `compileModule` / `compileWithCompiler` -/

theorem compileModule_srcMissing_eq (env : BuilderEnv) (b : CppModuleBuilder)
    (sourceFile outputFile cppStandard : String)
    (h : env.fs.pathExists sourceFile = false) :
    compileModule env b sourceFile outputFile cppStandard =
      ({ sourceFile := sourceFile, outputFile := outputFile, success := false,
         stderr := "Source file does not exist: " ++ sourceFile }, {}) := by
  simp [compileModule, h]

theorem compileModule_bundled_eq (env : BuilderEnv) (b : CppModuleBuilder)
    (sourceFile outputFile cppStandard : String)
    (h1 : env.fs.pathExists sourceFile = true)
    (h2 : getClangToolchainPath env.clangEnvPath env.clangCMakeDef env.fs ≠ "") :
    compileModule env b sourceFile outputFile cppStandard =
      compileWithCompiler env b { sourceFile := sourceFile, outputFile := outputFile }
        sourceFile outputFile cppStandard
        ((env.absolutize (getClangToolchainPath env.clangEnvPath env.clangCMakeDef env.fs)).getD
          (getClangToolchainPath env.clangEnvPath env.clangCMakeDef env.fs)) []
        ((if b.hasProgressCallback then ["Checking C++ compiler availability..."] else []) ++
         (if b.hasProgressCallback then
            ["Using clang from AppImage: " ++
              getClangToolchainPath env.clangEnvPath env.clangCMakeDef env.fs]
          else [])) := by
  simp [compileModule, h1, h2]

theorem compileModule_probe_eq (env : BuilderEnv) (b : CppModuleBuilder)
    (sourceFile outputFile cppStandard : String)
    (h1 : env.fs.pathExists sourceFile = true)
    (h2 : getClangToolchainPath env.clangEnvPath env.clangCMakeDef env.fs = "") :
    compileModule env b sourceFile outputFile cppStandard =
      compileWithCompiler env b { sourceFile := sourceFile, outputFile := outputFile }
        sourceFile outputFile cppStandard
        (findAvailableCompiler env.probe b.compilerPath).1
        (findAvailableCompiler env.probe b.compilerPath).2
        (if b.hasProgressCallback then ["Checking C++ compiler availability..."] else []) := by
  simp [compileModule, h1, h2]

theorem compileWithCompiler_noCompiler_eq (env : BuilderEnv) (b : CppModuleBuilder)
    (r0 : CompilationResult) (sourceFile outputFile cppStandard : String)
    (probes prog : List String) :
    compileWithCompiler env b r0 sourceFile outputFile cppStandard "" probes prog =
      ({ r0 with success := false,
                 stderr := "No C++ compiler found. Please install clang++, g++, or c++.",
                 compileCommand := b.compilerPath ++ " (not found)" },
       { probes := probes, chosen := some "", launches := [],
         progress := prog ++
           (if b.hasProgressCallback then ["ERROR: No C++ compiler found"] else []) }) := by
  simp [compileWithCompiler]

theorem compileWithCompiler_run_eq (env : BuilderEnv) (b : CppModuleBuilder)
    (r0 : CompilationResult) (sourceFile outputFile cppStandard ac : String)
    (probes prog : List String) (hac : ac ≠ "") :
    compileWithCompiler env b r0 sourceFile outputFile cppStandard ac probes prog =
      ({ r0 with
           compileCommand := builtCommand env b ac sourceFile outputFile cppStandard,
           exitCode := (execPhase env b (builtCommand env b ac sourceFile outputFile cppStandard)).1,
           stdout := (execPhase env b (builtCommand env b ac sourceFile outputFile cppStandard)).2.stdoutAcc,
           stderr := (execPhase env b (builtCommand env b ac sourceFile outputFile cppStandard)).2.stderrAcc,
           success :=
             if (execPhase env b (builtCommand env b ac sourceFile outputFile cppStandard)).1 = 0 ∧
                moduleExists
                  (env.run (builtCommand env b ac sourceFile outputFile cppStandard)).fsAfter
                  outputFile = true
             then true else false },
       { probes := probes, chosen := some ac,
         launches := [builtCommand env b ac sourceFile outputFile cppStandard],
         progress :=
           (prog ++ (if b.hasProgressCallback then ["Preparing compilation command..."] else []) ++
            (if b.hasProgressCallback then ["Compilation of module ..."] else [])) ++
           (execPhase env b (builtCommand env b ac sourceFile outputFile cppStandard)).2.progress }) := by
  simp only [compileWithCompiler, if_neg hac, builtCommand, execPhase]
  split
  next => rfl
  next => rfl

/-- Artifact verification in `compileWithCompiler`: once a compiler is chosen,
    `success` holds exactly when the exit code is 0 and the output file exists
    as a regular file after the run. -/
theorem compileWithCompiler_success_iff (env : BuilderEnv) (b : CppModuleBuilder)
    (r0 : CompilationResult) (sourceFile outputFile cppStandard ac : String)
    (probes prog : List String) (hac : ac ≠ "") :
    ((compileWithCompiler env b r0 sourceFile outputFile cppStandard ac probes prog).1.success = true ↔
      ((compileWithCompiler env b r0 sourceFile outputFile cppStandard ac probes prog).1.exitCode = 0 ∧
       moduleExists
         (env.run ((compileWithCompiler env b r0 sourceFile outputFile cppStandard ac
            probes prog).1.compileCommand)).fsAfter outputFile = true)) := by
  rw [compileWithCompiler_run_eq env b r0 sourceFile outputFile cppStandard ac probes prog hac]
  by_cases hcond :
      (execPhase env b (builtCommand env b ac sourceFile outputFile cppStandard)).1 = 0 ∧
      moduleExists (env.run (builtCommand env b ac sourceFile outputFile cppStandard)).fsAfter
        outputFile = true
  · simp [hcond]
  · simp only [if_neg hcond]
    simpa using hcond

/-! ## Characterisation of `findAvailableCompiler` -/

theorem findCompilerLoop_fst (probe : String → Int) (preferredCompiler : String)
    (h : isCompilerAvailable probe preferredCompiler = false) :
    ∀ l : List String,
      (findCompilerLoop probe preferredCompiler l).1 =
        (l.find? (isCompilerAvailable probe)).getD "" := by
  intro l
  induction l with
  | nil => rfl
  | cons c rest ih =>
    simp only [findCompilerLoop]
    by_cases hc : c = preferredCompiler
    · rw [if_neg (by simp [hc])]
      rw [List.find?_cons_of_neg _ (by simp [hc, h])]
      exact ih
    · rw [if_pos hc]
      by_cases ha : isCompilerAvailable probe c = true
      · rw [if_pos ha, List.find?_cons_of_pos _ ha]
        rfl
      · rw [if_neg ha, List.find?_cons_of_neg _ ha]
        simpa using ih

theorem findAvailableCompiler_fst (probe : String → Int) (preferredCompiler : String) :
    (findAvailableCompiler probe preferredCompiler).1 =
      ((preferredCompiler :: fallbackCompilers).find? (isCompilerAvailable probe)).getD "" := by
  by_cases h : isCompilerAvailable probe preferredCompiler = true
  · simp only [findAvailableCompiler, if_pos h, List.find?_cons_of_pos _ h, Option.getD_some]
  · have hb : isCompilerAvailable probe preferredCompiler = false := by
      revert h
      cases isCompilerAvailable probe preferredCompiler <;> simp
    rw [findAvailableCompiler, if_neg h, List.find?_cons_of_neg _ h]
    simpa using findCompilerLoop_fst probe preferredCompiler hb fallbackCompilers

theorem findAvailableCompiler_probes_head (probe : String → Int) (preferredCompiler : String) :
    (findAvailableCompiler probe preferredCompiler).2.head? = some preferredCompiler := by
  by_cases h : isCompilerAvailable probe preferredCompiler = true <;>
    simp [findAvailableCompiler, h]

theorem findCompilerLoop_probes_subset (probe : String → Int) (preferredCompiler : String) :
    ∀ l : List String, (findCompilerLoop probe preferredCompiler l).2 ⊆ l := by
  intro l
  induction l with
  | nil => simp [findCompilerLoop]
  | cons c rest ih =>
    simp only [findCompilerLoop]
    by_cases hc : c = preferredCompiler
    · rw [if_neg (by simp [hc])]
      exact ih.trans (List.subset_cons_self c rest)
    · rw [if_pos hc]
      by_cases ha : isCompilerAvailable probe c = true
      · rw [if_pos ha]
        intro x hx
        simp only [List.mem_singleton] at hx
        simp [hx]
      · rw [if_neg ha]
        simpa using List.cons_subset_cons c ih

theorem findAvailableCompiler_probes_subset (probe : String → Int) (preferredCompiler : String) :
    (findAvailableCompiler probe preferredCompiler).2 ⊆
      preferredCompiler :: fallbackCompilers := by
  by_cases h : isCompilerAvailable probe preferredCompiler = true
  · simp [findAvailableCompiler, h]
  · rw [findAvailableCompiler, if_neg h]
    simpa using List.cons_subset_cons preferredCompiler
      (findCompilerLoop_probes_subset probe preferredCompiler fallbackCompilers)

/-! ## Claim C1 -/

/-- Claim C1. Every compilation attempt that actually reaches process execution
    (the trace records a launched command) yields `success = true` iff the exit
    code is 0 AND the requested output file exists on disk as a regular file
    after the call; a zero exit code with no artifact yields `success = false`. -/
theorem C1_success_iff_exit0_and_artifact (env : BuilderEnv) (b : CppModuleBuilder)
    (sourceFile outputFile cppStandard : String)
    (h : (compileModule env b sourceFile outputFile cppStandard).2.launches ≠ []) :
    ((compileModule env b sourceFile outputFile cppStandard).1.success = true ↔
      ((compileModule env b sourceFile outputFile cppStandard).1.exitCode = 0 ∧
       moduleExists
         (env.run ((compileModule env b sourceFile outputFile cppStandard).1.compileCommand)).fsAfter
         outputFile = true)) := by
  by_cases h1 : env.fs.pathExists sourceFile = false
  · rw [compileModule_srcMissing_eq env b sourceFile outputFile cppStandard h1] at h
    exact absurd rfl h
  · have h1p : env.fs.pathExists sourceFile = true := by
      revert h1
      cases env.fs.pathExists sourceFile <;> simp
    by_cases h2 : getClangToolchainPath env.clangEnvPath env.clangCMakeDef env.fs = ""
    · rw [compileModule_probe_eq env b sourceFile outputFile cppStandard h1p h2] at h ⊢
      by_cases hac : (findAvailableCompiler env.probe b.compilerPath).1 = ""
      · rw [hac, compileWithCompiler_noCompiler_eq] at h
        exact absurd rfl h
      · exact compileWithCompiler_success_iff env b _ sourceFile outputFile cppStandard _ _ _ hac
    · rw [compileModule_bundled_eq env b sourceFile outputFile cppStandard h1p h2] at h ⊢
      by_cases hac : ((env.absolutize (getClangToolchainPath env.clangEnvPath env.clangCMakeDef
          env.fs)).getD (getClangToolchainPath env.clangEnvPath env.clangCMakeDef env.fs)) = ""
      · rw [hac, compileWithCompiler_noCompiler_eq] at h
        exact absurd rfl h
      · exact compileWithCompiler_success_iff env b _ sourceFile outputFile cppStandard _ _ _ hac

/-- Witness for C1. A runner that exits 0 but produces no artifact on disk:
    the attempt reaches execution and `success = false`. -/
theorem C1_witness :
    (compileModule envBundledNoArtifact builderA "src.cpp" "out.so" "c++17").2.launches ≠ [] ∧
    (compileModule envBundledNoArtifact builderA "src.cpp" "out.so" "c++17").1.exitCode = 0 ∧
    (compileModule envBundledNoArtifact builderA "src.cpp" "out.so" "c++17").1.success = false := by
  refine ⟨by decide, by decide, ?_⟩
  have h := C1_success_iff_exit0_and_artifact envBundledNoArtifact builderA
    "src.cpp" "out.so" "c++17" (by decide)
  by_cases hs : (compileModule envBundledNoArtifact builderA "src.cpp" "out.so" "c++17").1.success = true
  · exact absurd ((h.mp hs).2) (by decide)
  · revert hs
    cases (compileModule envBundledNoArtifact builderA "src.cpp" "out.so" "c++17").1.success <;> simp

/-! ## Claim C2 -/

/-- Claim C2. When the source file does not exist, `compileModule` fails fast:
    `success = false` with a descriptive message, no compiler is probed, no
    compiler is chosen, no command is synthesized and nothing is launched. -/
theorem C2_missing_source_fails_fast (env : BuilderEnv) (b : CppModuleBuilder)
    (sourceFile outputFile cppStandard : String)
    (h : env.fs.pathExists sourceFile = false) :
    (compileModule env b sourceFile outputFile cppStandard).1.success = false ∧
    (compileModule env b sourceFile outputFile cppStandard).1.stderr =
      "Source file does not exist: " ++ sourceFile ∧
    (compileModule env b sourceFile outputFile cppStandard).1.compileCommand = "" ∧
    (compileModule env b sourceFile outputFile cppStandard).2.probes = [] ∧
    (compileModule env b sourceFile outputFile cppStandard).2.chosen = none ∧
    (compileModule env b sourceFile outputFile cppStandard).2.launches = [] := by
  rw [compileModule_srcMissing_eq env b sourceFile outputFile cppStandard h]
  exact ⟨rfl, rfl, rfl, rfl, rfl, rfl⟩

/-- Witness for C2. Concrete missing source file. -/
theorem C2_witness :
    ((mkFS []).pathExists "absent.cpp" = false) ∧
    (compileModule envNoCompiler builderA "absent.cpp" "out.so" "c++17").1.success = false ∧
    (compileModule envNoCompiler builderA "absent.cpp" "out.so" "c++17").2.launches = [] := by
  have h := C2_missing_source_fails_fast envNoCompiler builderA "absent.cpp" "out.so" "c++17"
    (by decide)
  exact ⟨by decide, h.1, h.2.2.2.2.2⟩

theorem compileWithCompiler_trace_chosen (env : BuilderEnv) (b : CppModuleBuilder)
    (r0 : CompilationResult) (sourceFile outputFile cppStandard ac : String)
    (probes prog : List String) :
    (compileWithCompiler env b r0 sourceFile outputFile cppStandard ac probes prog).2.chosen =
      some ac := by
  by_cases hac : ac = ""
  · rw [hac, compileWithCompiler_noCompiler_eq]
  · rw [compileWithCompiler_run_eq env b r0 sourceFile outputFile cppStandard ac probes prog hac]

theorem compileWithCompiler_trace_probes (env : BuilderEnv) (b : CppModuleBuilder)
    (r0 : CompilationResult) (sourceFile outputFile cppStandard ac : String)
    (probes prog : List String) :
    (compileWithCompiler env b r0 sourceFile outputFile cppStandard ac probes prog).2.probes =
      probes := by
  by_cases hac : ac = ""
  · rw [hac, compileWithCompiler_noCompiler_eq]
  · rw [compileWithCompiler_run_eq env b r0 sourceFile outputFile cppStandard ac probes prog hac]

/-! ## Claim C3 -/

/-- Claim C3. A bundled toolchain is never probed: (i) the runtime indicator with
    an existing `clang++` underneath resolves directly to that binary;
    (ii) whenever any bundled source yields a toolchain, `compileModule` probes
    nothing and stores the (absolutized) bundled compiler; (iii) probes are
    performed only when no bundled toolchain exists, and then only on the
    non-bundled candidates (the preferred compiler and the fixed fallbacks). -/
theorem C3_bundled_never_probed :
    (∀ (p : String) (cd : Option String) (fs : FileSystem),
        p ≠ "" → fs.pathExists (p ++ "/clang++") = true →
        getClangToolchainPath (some p) cd fs = p ++ "/clang++") ∧
    (∀ (env : BuilderEnv) (b : CppModuleBuilder) (sourceFile outputFile cppStandard : String),
        env.fs.pathExists sourceFile = true →
        getClangToolchainPath env.clangEnvPath env.clangCMakeDef env.fs ≠ "" →
        (compileModule env b sourceFile outputFile cppStandard).2.probes = [] ∧
        (compileModule env b sourceFile outputFile cppStandard).2.chosen =
          some ((env.absolutize
              (getClangToolchainPath env.clangEnvPath env.clangCMakeDef env.fs)).getD
            (getClangToolchainPath env.clangEnvPath env.clangCMakeDef env.fs))) ∧
    (∀ (env : BuilderEnv) (b : CppModuleBuilder) (sourceFile outputFile cppStandard : String),
        env.fs.pathExists sourceFile = true →
        getClangToolchainPath env.clangEnvPath env.clangCMakeDef env.fs = "" →
        (compileModule env b sourceFile outputFile cppStandard).2.probes ⊆
          b.compilerPath :: fallbackCompilers) := by
  refine ⟨?_, ?_, ?_⟩
  · intro p cd fs hp hex
    simp [getClangToolchainPath, tryToolchainDir, hp, hex]
  · intro env b sourceFile outputFile cppStandard h1 h2
    rw [compileModule_bundled_eq env b sourceFile outputFile cppStandard h1 h2]
    exact ⟨compileWithCompiler_trace_probes _ _ _ _ _ _ _ _ _,
           compileWithCompiler_trace_chosen _ _ _ _ _ _ _ _ _⟩
  · intro env b sourceFile outputFile cppStandard h1 h2
    rw [compileModule_probe_eq env b sourceFile outputFile cppStandard h1 h2]
    rw [compileWithCompiler_trace_probes]
    exact findAvailableCompiler_probes_subset env.probe b.compilerPath

/-- Witness for C3. A bundled toolchain at `/opt/bundle` resolves directly,
    with zero probes recorded. -/
theorem C3_witness :
    getClangToolchainPath (some "/opt/bundle") none (mkFS ["/opt/bundle/clang++"]) =
      "/opt/bundle/clang++" ∧
    (compileModule envBundledNoArtifact builderA "src.cpp" "out.so" "c++17").2.probes = [] ∧
    (compileModule envBundledNoArtifact builderA "src.cpp" "out.so" "c++17").2.chosen =
      some "/opt/bundle/clang++" := by
  refine ⟨C3_bundled_never_probed.1 "/opt/bundle" none (mkFS ["/opt/bundle/clang++"])
      (by decide) (by decide), ?_, ?_⟩
  · exact (C3_bundled_never_probed.2.1 envBundledNoArtifact builderA "src.cpp" "out.so" "c++17"
      (by decide) (by decide)).1
  · have h2 := (C3_bundled_never_probed.2.1 envBundledNoArtifact builderA "src.cpp" "out.so"
      "c++17" (by decide) (by decide)).2
    rw [h2]
    decide

/-! ## Claim C4 -/

/-- Claim C4. With no bundled toolchain: the preferred compiler is probed first;
    the chosen compiler is the first of preferred-then-fallbacks
    (`g++`, `clang++`, `c++`) whose version probe exits 0; when every probe
    fails, the result is `success = false` with a descriptive message and
    nothing is ever launched. -/
theorem C4_probe_order_and_failure :
    (∀ (env : BuilderEnv) (b : CppModuleBuilder) (sourceFile outputFile cppStandard : String),
        env.fs.pathExists sourceFile = true →
        getClangToolchainPath env.clangEnvPath env.clangCMakeDef env.fs = "" →
        (compileModule env b sourceFile outputFile cppStandard).2.chosen =
          some (((b.compilerPath :: fallbackCompilers).find?
            (isCompilerAvailable env.probe)).getD "") ∧
        (compileModule env b sourceFile outputFile cppStandard).2.probes.head? =
          some b.compilerPath) ∧
    (∀ (env : BuilderEnv) (b : CppModuleBuilder) (sourceFile outputFile cppStandard : String),
        env.fs.pathExists sourceFile = true →
        getClangToolchainPath env.clangEnvPath env.clangCMakeDef env.fs = "" →
        (∀ comp ∈ b.compilerPath :: fallbackCompilers,
          isCompilerAvailable env.probe comp = false) →
        (compileModule env b sourceFile outputFile cppStandard).1.success = false ∧
        (compileModule env b sourceFile outputFile cppStandard).1.stderr =
          "No C++ compiler found. Please install clang++, g++, or c++." ∧
        (compileModule env b sourceFile outputFile cppStandard).2.launches = []) := by
  constructor
  · intro env b sourceFile outputFile cppStandard h1 h2
    rw [compileModule_probe_eq env b sourceFile outputFile cppStandard h1 h2]
    rw [compileWithCompiler_trace_chosen, compileWithCompiler_trace_probes]
    exact ⟨by rw [findAvailableCompiler_fst], findAvailableCompiler_probes_head env.probe
      b.compilerPath⟩
  · intro env b sourceFile outputFile cppStandard h1 h2 hall
    have hnone : (b.compilerPath :: fallbackCompilers).find?
        (isCompilerAvailable env.probe) = none := by
      rw [List.find?_eq_none]
      intro x hx
      simp [hall x hx]
    have hac : (findAvailableCompiler env.probe b.compilerPath).1 = "" := by
      rw [findAvailableCompiler_fst, hnone]
      rfl
    rw [compileModule_probe_eq env b sourceFile outputFile cppStandard h1 h2, hac,
      compileWithCompiler_noCompiler_eq]
    exact ⟨rfl, rfl, rfl⟩

/-- Witness for C4. Preferred `clang++` fails its probe, `g++` is accepted from
    the fallback list; with every probe failing, compilation fails with the
    descriptive message and no launch. -/
theorem C4_witness :
    (compileModule envOnlyGpp builderA "src.cpp" "out.so" "c++17").2.chosen = some "g++" ∧
    (compileModule envOnlyGpp builderA "src.cpp" "out.so" "c++17").2.probes.head? =
      some "clang++" ∧
    (compileModule envNoCompiler builderA "src.cpp" "out.so" "c++17").1.success = false ∧
    (compileModule envNoCompiler builderA "src.cpp" "out.so" "c++17").2.launches = [] := by
  have h1 := C4_probe_order_and_failure.1 envOnlyGpp builderA "src.cpp" "out.so" "c++17"
    (by decide) (by decide)
  have h2 := C4_probe_order_and_failure.2 envNoCompiler builderA "src.cpp" "out.so" "c++17"
    (by decide) (by decide) (by decide)
  exact ⟨by rw [h1.1]; decide, h1.2, h2.1, h2.2.2⟩

/-! ## Claim C8 -/

/-- Claim C8. (i) When the child process cannot be launched, `executeCommand`
    reports the sentinel `-1` instead of propagating the exception; (ii) the
    sentinel is not a process exit code (launched processes report non-negative
    statuses); (iii) `compileModule` is a total function into
    `CompilationResult` and on every `success = false` outcome the failure
    cause is represented in the returned data: the source was missing, or no
    compiler was found, or the exit code is nonzero, or the artifact is absent. -/
theorem C8_no_exception_all_failures_in_result :
    (∀ (σ : Type) (rr : RunResult) (s0 : σ) (f g : σ → String → σ),
        rr.launched = false → (executeCommand rr s0 f g).1 = -1) ∧
    (∀ (σ : Type) (rr : RunResult) (s0 : σ) (f g : σ → String → σ),
        rr.launched = true → 0 ≤ (executeCommand rr s0 f g).1) ∧
    (∀ (env : BuilderEnv) (b : CppModuleBuilder) (sourceFile outputFile cppStandard : String),
        (compileModule env b sourceFile outputFile cppStandard).1.success = false →
        env.fs.pathExists sourceFile = false ∨
        (compileModule env b sourceFile outputFile cppStandard).2.chosen = some "" ∨
        (compileModule env b sourceFile outputFile cppStandard).1.exitCode ≠ 0 ∨
        moduleExists
          (env.run ((compileModule env b sourceFile outputFile cppStandard).1.compileCommand)).fsAfter
          outputFile = false) := by
  refine ⟨?_, ?_, ?_⟩
  · intro σ rr s0 f g h
    simp [executeCommand, h]
  · intro σ rr s0 f g h
    simp [executeCommand, h]
  · intro env b sourceFile outputFile cppStandard hs
    by_cases h1 : env.fs.pathExists sourceFile = false
    · exact Or.inl h1
    · have h1p : env.fs.pathExists sourceFile = true := by
        revert h1
        cases env.fs.pathExists sourceFile <;> simp
      have main :
          ∀ (ac : String) (probes prog : List String),
            compileModule env b sourceFile outputFile cppStandard =
              compileWithCompiler env b { sourceFile := sourceFile, outputFile := outputFile }
                sourceFile outputFile cppStandard ac probes prog →
            (compileModule env b sourceFile outputFile cppStandard).2.chosen = some "" ∨
            (compileModule env b sourceFile outputFile cppStandard).1.exitCode ≠ 0 ∨
            moduleExists
              (env.run ((compileModule env b sourceFile outputFile
                cppStandard).1.compileCommand)).fsAfter outputFile = false := by
        intro ac probes prog heq
        by_cases hac : ac = ""
        · refine Or.inl ?_
          rw [heq, compileWithCompiler_trace_chosen, hac]
        · have hiff := compileWithCompiler_success_iff env b
            { sourceFile := sourceFile, outputFile := outputFile }
            sourceFile outputFile cppStandard ac probes prog hac
          rw [← heq] at hiff
          by_cases he : (compileModule env b sourceFile outputFile cppStandard).1.exitCode = 0
          · by_cases hm : moduleExists
                (env.run ((compileModule env b sourceFile outputFile
                  cppStandard).1.compileCommand)).fsAfter outputFile = true
            · rw [hiff.mpr ⟨he, hm⟩] at hs
              exact absurd hs (by simp)
            · refine Or.inr (Or.inr ?_)
              simpa using hm
          · exact Or.inr (Or.inl he)
      by_cases h2 : getClangToolchainPath env.clangEnvPath env.clangCMakeDef env.fs = ""
      · exact Or.inr (main _ _ _ (compileModule_probe_eq env b sourceFile outputFile
          cppStandard h1p h2))
      · exact Or.inr (main _ _ _ (compileModule_bundled_eq env b sourceFile outputFile
          cppStandard h1p h2))

/-- Witness for C8. A concrete launch failure: the runner reports `-1`, and the
    failed concrete compilation's cause is represented in the result. -/
theorem C8_witness :
    (executeCommand (mkNoLaunchRun "cmd") initialStreamState
        (onStdoutLine true) (onStderrLine true)).1 = -1 ∧
    (envLaunchFailure.fs.pathExists "src.cpp" = false ∨
      (compileModule envLaunchFailure builderA "src.cpp" "out.so" "c++17").2.chosen = some "" ∨
      (compileModule envLaunchFailure builderA "src.cpp" "out.so" "c++17").1.exitCode ≠ 0 ∨
      moduleExists
        (envLaunchFailure.run ((compileModule envLaunchFailure builderA "src.cpp" "out.so"
          "c++17").1.compileCommand)).fsAfter "out.so" = false) :=
  ⟨C8_no_exception_all_failures_in_result.1 StreamState (mkNoLaunchRun "cmd")
      initialStreamState (onStdoutLine true) (onStderrLine true) rfl,
   C8_no_exception_all_failures_in_result.2.2 envLaunchFailure builderA "src.cpp" "out.so"
      "c++17" (by decide)⟩

/-! ## Claim C9 -/

theorem applyAdapterCall_modelName {Mat MR Vis SP L Rend Act : Type}
    (tops : TemplateOps Mat MR Vis) (mrops : ModelReaderOps MR Mat SP L)
    (vops : VisualizerOps Vis Mat Rend Act)
    (a : SceneWidgetVisualizerAdapter Mat MR Vis) (call : AdapterCall SP L Rend Act) :
    (applyAdapterCall tops mrops vops a call).m_modelName = a.m_modelName := by
  cases call <;> rfl

theorem applyAdapterCalls_modelName {Mat MR Vis SP L Rend Act : Type}
    (tops : TemplateOps Mat MR Vis) (mrops : ModelReaderOps MR Mat SP L)
    (vops : VisualizerOps Vis Mat Rend Act) :
    ∀ (calls : List (AdapterCall SP L Rend Act)) (a : SceneWidgetVisualizerAdapter Mat MR Vis),
      (applyAdapterCalls tops mrops vops calls a).m_modelName = a.m_modelName := by
  intro calls
  induction calls with
  | nil => intro a; rfl
  | cons c rest ih =>
    intro a
    have : applyAdapterCalls tops mrops vops (c :: rest) a =
        applyAdapterCalls tops mrops vops rest (applyAdapterCall tops mrops vops a c) := rfl
    rw [this, ih, applyAdapterCall_modelName]

/-- Claim C9. The adapter reports exactly the construction-time model name for its
    whole lifetime (after any sequence of interface calls), and forwards every
    interface operation unchanged — same caller arguments, applied to the
    wrapped template implementation's own sub-objects — while never touching
    the stored name. -/
theorem C9_adapter_forwards_and_keeps_name :
    ∀ (Mat MR Vis SP L Rend Act : Type)
      (tops : TemplateOps Mat MR Vis) (mrops : ModelReaderOps MR Mat SP L)
      (vops : VisualizerOps Vis Mat Rend Act)
      (impl0 : SceneWidgetVisualizerTemplate Mat MR Vis) (name : String)
      (calls : List (AdapterCall SP L Rend Act)),
      (applyAdapterCalls tops mrops vops calls
          (SceneWidgetVisualizerAdapter.construct impl0 name)).getModelName = name ∧
      (SceneWidgetVisualizerAdapter.construct impl0 name).getModelName = name ∧
      (∀ (a : SceneWidgetVisualizerAdapter Mat MR Vis) (dimX dimY : Int),
        (a.initMatrix tops dimX dimY).m_impl = tops.initMatrix a.m_impl dimX dimY ∧
        (a.initMatrix tops dimX dimY).m_modelName = a.m_modelName) ∧
      (∀ (a : SceneWidgetVisualizerAdapter Mat MR Vis) (nNodeX nNodeY : Int),
        (a.prepareStage mrops nNodeX nNodeY).m_impl.modelReader =
          mrops.prepareStage a.m_impl.modelReader nNodeX nNodeY ∧
        (a.prepareStage mrops nNodeX nNodeY).m_impl.p = a.m_impl.p ∧
        (a.prepareStage mrops nNodeX nNodeY).m_modelName = a.m_modelName) ∧
      (∀ (a : SceneWidgetVisualizerAdapter Mat MR Vis),
        (a.clearStage mrops).m_impl.modelReader = mrops.clearStage a.m_impl.modelReader ∧
        (a.clearStage mrops).m_modelName = a.m_modelName) ∧
      (∀ (a : SceneWidgetVisualizerAdapter Mat MR Vis) (nNodeX nNodeY : Int) (filename : String),
        (a.readStepsOffsetsForAllNodesFromFiles mrops nNodeX nNodeY filename).m_impl.modelReader =
          mrops.readStepsOffsetsForAllNodesFromFiles a.m_impl.modelReader nNodeX nNodeY filename ∧
        (a.readStepsOffsetsForAllNodesFromFiles mrops nNodeX nNodeY
          filename).m_modelName = a.m_modelName) ∧
      (∀ (a : SceneWidgetVisualizerAdapter Mat MR Vis) (sp : SP) (lines : L),
        (a.readStageStateFromFilesForStep mrops sp lines).m_impl.modelReader =
          (mrops.readStageStateFromFilesForStep a.m_impl.modelReader a.m_impl.p sp lines).1 ∧
        (a.readStageStateFromFilesForStep mrops sp lines).m_impl.p =
          (mrops.readStageStateFromFilesForStep a.m_impl.modelReader a.m_impl.p sp lines).2 ∧
        (a.readStageStateFromFilesForStep mrops sp lines).m_modelName = a.m_modelName) ∧
      (∀ (a : SceneWidgetVisualizerAdapter Mat MR Vis) (nRows nCols : Int)
          (renderer : Rend) (gridActor : Act),
        (a.drawWithVTK vops nRows nCols renderer gridActor).m_impl.visualiser =
          vops.drawWithVTK a.m_impl.visualiser a.m_impl.p nRows nCols renderer gridActor ∧
        (a.drawWithVTK vops nRows nCols renderer gridActor).m_modelName = a.m_modelName) ∧
      (∀ (a : SceneWidgetVisualizerAdapter Mat MR Vis) (nRows nCols : Int) (gridActor : Act),
        (a.refreshWindowsVTK vops nRows nCols gridActor).m_impl.visualiser =
          vops.refreshWindowsVTK a.m_impl.visualiser a.m_impl.p nRows nCols gridActor ∧
        (a.refreshWindowsVTK vops nRows nCols gridActor).m_modelName = a.m_modelName) ∧
      (∀ (a : SceneWidgetVisualizerAdapter Mat MR Vis),
        a.availableSteps mrops = mrops.availableSteps a.m_impl.modelReader) := by
  intro Mat MR Vis SP L Rend Act tops mrops vops impl0 name calls
  refine ⟨applyAdapterCalls_modelName tops mrops vops calls _, rfl, ?_, ?_, ?_, ?_, ?_, ?_, ?_, ?_⟩
  · intro a dimX dimY; exact ⟨rfl, rfl⟩
  · intro a x y; exact ⟨rfl, rfl, rfl⟩
  · intro a; exact ⟨rfl, rfl⟩
  · intro a x y f; exact ⟨rfl, rfl⟩
  · intro a sp lines; exact ⟨rfl, rfl, rfl⟩
  · intro a r c rend act; exact ⟨rfl, rfl⟩
  · intro a r c act; exact ⟨rfl, rfl⟩
  · intro a; rfl

theorem string_nil_append : ∀ s : String, "" ++ s = s :=
  fun ⟨_⟩ => rfl

/-! ## Claim C6 -/

/-- Claim C6. For a bundled toolchain running from a relocated/mounted location
    (a compiler path carrying the AppImage markers), the synthesized command is
    the `LD_LIBRARY_PATH=...` environment assignment *prepended in front of the
    compiler executable* — an environment prefix, not a compiler flag; for a
    compiler without the markers (a system toolchain) the command starts with
    the compiler itself and no such prefix exists. -/
theorem C6_ld_env_assignment_prepended :
    ∀ (fs : FileSystem) (vre : Option String) (vf cp ood prp src out std : String) (hcpp : Nat),
      (isAppImagePath cp = true →
        buildCompileCommand fs vre vf cp ood prp src out std hcpp =
          ("LD_LIBRARY_PATH=\"" ++ ldLibraryPathValue cp ++ ":$LD_LIBRARY_PATH\" ") ++
            (cp ++ afterCompilerPart fs vre vf cp ood prp src out std hcpp) ∧
        strStartsWith (ldPrefixSegment cp) "LD_LIBRARY_PATH=" = true) ∧
      (isAppImagePath cp = false →
        buildCompileCommand fs vre vf cp ood prp src out std hcpp =
          cp ++ afterCompilerPart fs vre vf cp ood prp src out std hcpp ∧
        ldPrefixSegment cp = "") := by
  intro fs vre vf cp ood prp src out std hcpp
  constructor
  · intro hm
    constructor
    · unfold buildCompileCommand ldPrefixSegment
      rw [if_pos hm]
    · unfold ldPrefixSegment
      rw [if_pos hm]
      simp only [strAppend_assoc]
      exact strStartsWith_append_of_left _ _ _ (by decide)
  · intro hm
    have hm' : ¬ isAppImagePath cp = true := by simp [hm]
    constructor
    · unfold buildCompileCommand ldPrefixSegment
      rw [if_neg hm', string_nil_append]
    · unfold ldPrefixSegment
      rw [if_neg hm']

/-- Witness for C6. A mounted AppImage compiler path gets the environment
    prefix in front of the compiler; `g++` gets none. -/
theorem C6_witness :
    buildCompileCommand (mkFS []) none "" "/tmp/.mount_OOpenC/usr/bin/clang++" "/oo" ""
        "src.cpp" "out.so" "c++17" 201703 =
      ("LD_LIBRARY_PATH=\"" ++ ldLibraryPathValue "/tmp/.mount_OOpenC/usr/bin/clang++" ++
          ":$LD_LIBRARY_PATH\" ") ++
        ("/tmp/.mount_OOpenC/usr/bin/clang++" ++
          afterCompilerPart (mkFS []) none "" "/tmp/.mount_OOpenC/usr/bin/clang++" "/oo" ""
            "src.cpp" "out.so" "c++17" 201703) ∧
    buildCompileCommand (mkFS []) none "" "g++" "/oo" "" "src.cpp" "out.so" "c++17" 201703 =
      "g++" ++ afterCompilerPart (mkFS []) none "" "g++" "/oo" "" "src.cpp" "out.so" "c++17"
        201703 ∧
    ldPrefixSegment "g++" = "" := by
  have h1 := (C6_ld_env_assignment_prepended (mkFS []) none "" "/tmp/.mount_OOpenC/usr/bin/clang++"
    "/oo" "" "src.cpp" "out.so" "c++17" 201703).1 (by decide)
  have h2 := (C6_ld_env_assignment_prepended (mkFS []) none "" "g++"
    "/oo" "" "src.cpp" "out.so" "c++17" 201703).2 (by decide)
  exact ⟨h1.1, h2.1, h2.2⟩

/-! ## Claim C10 -/

/-- Claim C10. The builder classifies a toolchain as bundled/relocated solely by
    the substring test `".mount_" or "/tmp/" occurs in the compiler path`: the
    `LD_LIBRARY_PATH` prefix, the isolation flags and the bundled sysroot
    include block are each non-empty exactly for marker paths; any compiler
    under `/tmp/` is treated as bundled; and a bundled compiler announced by
    the runtime indicator at the marker-free path `/opt/bundle` resolves, yet
    receives no header isolation, no bundled includes and no library-path
    prefix — its command uses the host VTK include instead. -/
theorem C10_bundled_markers_substring_only :
    (∀ cp : String,
      isAppImagePath cp = (containsSub cp ".mount_" || containsSub cp "/tmp/")) ∧
    (∀ cp : String, strIsEmpty (ldPrefixSegment cp) = !(isAppImagePath cp)) ∧
    (∀ cp : String, strIsEmpty (isolationFlagsSegment cp) = !(isAppImagePath cp)) ∧
    (∀ cp : String, strIsEmpty (appImageSysIncludeSegment cp) = !(isAppImagePath cp)) ∧
    (∀ s : String, isAppImagePath ("/tmp/" ++ s) = true) ∧
    (isAppImagePath "/opt/bundle/clang++" = false ∧
     ldPrefixSegment "/opt/bundle/clang++" = "" ∧
     isolationFlagsSegment "/opt/bundle/clang++" = "" ∧
     appImageSysIncludeSegment "/opt/bundle/clang++" = "" ∧
     vtkIncludeSegment "/opt/bundle/clang++" = " -I/usr/include/vtk-9.1" ∧
     getClangToolchainPath (some "/opt/bundle") none (mkFS ["/opt/bundle/clang++"]) =
       "/opt/bundle/clang++") := by
  refine ⟨fun cp => rfl, ?_, ?_, ?_, ?_, ?_⟩
  · intro cp
    cases hmb : isAppImagePath cp with
    | false =>
      rw [ldPrefixSegment, if_neg (by simp [hmb])]
      rfl
    | true =>
      rw [ldPrefixSegment, if_pos hmb, Bool.not_true]
      simp only [strAppend_assoc]
      exact strIsEmpty_append_left _ _ (by decide)
  · intro cp
    cases hmb : isAppImagePath cp with
    | false =>
      rw [isolationFlagsSegment, if_neg (by simp [hmb])]
      rfl
    | true =>
      rw [isolationFlagsSegment, if_pos hmb, Bool.not_true]
      decide
  · intro cp
    cases hmb : isAppImagePath cp with
    | false =>
      rw [appImageSysIncludeSegment, if_neg (by simp [hmb])]
      rfl
    | true =>
      rw [appImageSysIncludeSegment, if_pos hmb, Bool.not_true]
      simp only [appImageSysIncludeDirs, List.map_cons, isystemFlag]
      exact strIsEmpty_concatAll_cons _ _
        (data_ne_nil_append_left _ _ (data_ne_nil_append_left _ _ (by decide)))
  · intro s
    have h : containsSub ("/tmp/" ++ s) "/tmp/" = true :=
      containsSub_append_right _ _ _ (by decide)
    simp [isAppImagePath, h]
  · exact ⟨by decide, by decide, by decide, by decide, by decide, by decide⟩

/-! ## Claim C5 -/

/-- Counterexample for C5. A bundled toolchain supplied via the runtime
    indicator at `/opt/bundle` (no AppImage marker in the path) is chosen by
    resolution, yet its synthesized command contains no `-nostdinc` isolation
    flag and does contain the un-isolated host VTK include
    ` -I/usr/include/vtk-9.1` — refuting the claim that *every* bundled
    toolchain's command is isolated. -/
theorem C5_counterexample :
    getClangToolchainPath envBundledNoArtifact.clangEnvPath envBundledNoArtifact.clangCMakeDef
        envBundledNoArtifact.fs = "/opt/bundle/clang++" ∧
    (compileModule envBundledNoArtifact builderA "src.cpp" "out.so" "c++17").2.chosen =
      some "/opt/bundle/clang++" ∧
    containsSub
      ((compileModule envBundledNoArtifact builderA "src.cpp" "out.so" "c++17").1.compileCommand)
      "-nostdinc" = false ∧
    containsSub
      ((compileModule envBundledNoArtifact builderA "src.cpp" "out.so" "c++17").1.compileCommand)
      " -I/usr/include/vtk-9.1" = true :=
  ⟨by decide, by decide, by decide, by decide⟩

/-- Amended claim C5. Header isolation is keyed to the AppImage marker test,
    not to bundledness: when the compiler path carries a marker the synthesized
    command contains `-nostdinc` and `-nostdinc++`, its VTK include is the
    bundled mount-point path (never the plain host `/usr/include` VTK path),
    every bundled system-include directory and the intrinsics directory are
    rooted at the mount point; when the path carries no marker there are no
    isolation flags, no prefix, and the host VTK include is used. -/
theorem C5_amended_isolation_iff_appimage_marker :
    ∀ (fs : FileSystem) (vre : Option String) (vf cp ood prp src out std : String) (hcpp : Nat),
      (isAppImagePath cp = true →
        containsSub (buildCompileCommand fs vre vf cp ood prp src out std hcpp)
          "-nostdinc" = true ∧
        containsSub (buildCompileCommand fs vre vf cp ood prp src out std hcpp)
          "-nostdinc++" = true ∧
        vtkIncludeSegment cp =
          " -I\"" ++ (mountPointOf cp ++ "/usr/include") ++ "/vtk-9.1\"" ∧
        vtkIncludeSegment cp ≠ " -I/usr/include/vtk-9.1" ∧
        (∀ d ∈ appImageSysIncludeDirs cp, strStartsWith d (mountPointOf cp) = true) ∧
        strStartsWith (findClangIntrinsicsPath fs (mountPointOf cp)) (mountPointOf cp) = true) ∧
      (isAppImagePath cp = false →
        isolationFlagsSegment cp = "" ∧
        ldPrefixSegment cp = "" ∧
        vtkIncludeSegment cp = " -I/usr/include/vtk-9.1") := by
  intro fs vre vf cp ood prp src out std hcpp
  constructor
  · intro hm
    refine ⟨?_, ?_, ?_, ?_, ?_, ?_⟩
    · unfold buildCompileCommand
      apply containsSub_append_left
      apply containsSub_append_left
      unfold afterCompilerPart
      simp only [strAppend_assoc]
      apply containsSub_append_left
      apply containsSub_append_left
      apply containsSub_append_left
      apply containsSub_append_left
      apply containsSub_append_right
      rw [isolationFlagsSegment, if_pos hm]
      decide
    · unfold buildCompileCommand
      apply containsSub_append_left
      apply containsSub_append_left
      unfold afterCompilerPart
      simp only [strAppend_assoc]
      apply containsSub_append_left
      apply containsSub_append_left
      apply containsSub_append_left
      apply containsSub_append_left
      apply containsSub_append_right
      rw [isolationFlagsSegment, if_pos hm]
      decide
    · rw [vtkIncludeSegment, if_pos hm]
    · intro heq
      have h1 : strStartsWith (vtkIncludeSegment cp) " -I\"" = true := by
        rw [vtkIncludeSegment, if_pos hm]
        simp only [strAppend_assoc]
        exact strStartsWith_of_append _ _
      rw [heq] at h1
      exact absurd h1 (by decide)
    · intro d hd
      simp only [appImageSysIncludeDirs, List.mem_cons, List.not_mem_nil, or_false] at hd
      rcases hd with h | h | h | h | h | h | h | h | h | h <;>
        (subst h; try simp only [strAppend_assoc]) <;> exact strStartsWith_of_append _ _
    · simp only [findClangIntrinsicsPath]
      split
      · try simp only [strAppend_assoc]
        exact strStartsWith_of_append _ _
      · split
        · try simp only [strAppend_assoc]
          exact strStartsWith_of_append _ _
        · split
          · try simp only [strAppend_assoc]
            exact strStartsWith_of_append _ _
          · try simp only [strAppend_assoc]
            exact strStartsWith_of_append _ _
  · intro hm
    have hm' : ¬ isAppImagePath cp = true := by simp [hm]
    exact ⟨by rw [isolationFlagsSegment, if_neg hm'],
           by rw [ldPrefixSegment, if_neg hm'],
           by rw [vtkIncludeSegment, if_neg hm']⟩

/-- Witness for the amended C5. A marker path gets both isolation flags; the
    marker-free bundled path gets none and keeps the host VTK include. -/
theorem C5_amended_witness :
    containsSub (buildCompileCommand (mkFS []) none "" "/tmp/.mount_OOpenC/usr/bin/clang++"
      "/oo" "" "src.cpp" "out.so" "c++17" 201703) "-nostdinc" = true ∧
    containsSub (buildCompileCommand (mkFS []) none "" "/tmp/.mount_OOpenC/usr/bin/clang++"
      "/oo" "" "src.cpp" "out.so" "c++17" 201703) "-nostdinc++" = true ∧
    isolationFlagsSegment "/opt/bundle/clang++" = "" ∧
    vtkIncludeSegment "/opt/bundle/clang++" = " -I/usr/include/vtk-9.1" := by
  have h1 := (C5_amended_isolation_iff_appimage_marker (mkFS []) none ""
    "/tmp/.mount_OOpenC/usr/bin/clang++" "/oo" "" "src.cpp" "out.so" "c++17" 201703).1 (by decide)
  have h2 := (C5_amended_isolation_iff_appimage_marker (mkFS []) none ""
    "/opt/bundle/clang++" "/oo" "" "src.cpp" "out.so" "c++17" 201703).2 (by decide)
  exact ⟨h1.1, h1.2.1, h2.1, h2.2.2⟩

/-! ## Claim C7 -/

theorem processEvents_append (cb : Bool) (s : StreamState) (es1 es2 : List OutputEvent) :
    processEvents cb s (es1 ++ es2) = processEvents cb (processEvents cb s es1) es2 := by
  simp [processEvents, List.foldl_append]

theorem onStdoutLine_true_lineCount (s : StreamState) (l : String) (hl : l ≠ "") :
    (onStdoutLine true s l).lineCount = s.lineCount + 1 := by
  unfold onStdoutLine
  rw [if_pos ⟨rfl, hl⟩]
  by_cases h5 : (s.lineCount + 1) % 5 = 0 <;> simp [h5]

theorem onStdoutLine_true_progress (s : StreamState) (l : String) (hl : l ≠ "") :
    (onStdoutLine true s l).progress =
      s.progress ++
        (if (s.lineCount + 1) % 5 = 0
         then ["Compiling... (" ++ toString (s.lineCount + 1) ++ " lines)"] else []) := by
  unfold onStdoutLine
  rw [if_pos ⟨rfl, hl⟩]
  by_cases h5 : (s.lineCount + 1) % 5 = 0 <;> simp [h5]

theorem batchMessagesFrom_succ_left (c n : Nat) :
    batchMessagesFrom c (n + 1) =
      (if (c + 1) % 5 = 0 then ["Compiling... (" ++ toString (c + 1) ++ " lines)"] else []) ++
        batchMessagesFrom (c + 1) n := by
  unfold batchMessagesFrom
  rw [List.range_succ_eq_map, List.filterMap_cons, List.filterMap_map]
  have htail :
      List.filterMap
        ((fun j => if (c + j + 1) % 5 = 0
          then some ("Compiling... (" ++ toString (c + j + 1) ++ " lines)") else none) ∘
          Nat.succ)
        (List.range n) =
      List.filterMap
        (fun j => if (c + 1 + j + 1) % 5 = 0
          then some ("Compiling... (" ++ toString (c + 1 + j + 1) ++ " lines)") else none)
        (List.range n) := by
    apply List.filterMap_congr
    intro j _
    simp only [Function.comp]
    have harith : c + Nat.succ j + 1 = c + 1 + j + 1 := by omega
    simp only [harith]
  rw [htail]
  have hzero : c + 0 + 1 = c + 1 := by omega
  rw [hzero]
  by_cases h5 : (c + 1) % 5 = 0
  · rw [if_pos h5, if_pos h5]
    rfl
  · rw [if_neg h5, if_neg h5]
    rfl

theorem processEvents_replicate_out (l : String) (hl : l ≠ "") :
    ∀ (n : Nat) (s : StreamState),
      (processEvents true s (List.replicate n (OutputEvent.out l))).lineCount =
        s.lineCount + n ∧
      (processEvents true s (List.replicate n (OutputEvent.out l))).progress =
        s.progress ++ batchMessagesFrom s.lineCount n := by
  intro n
  induction n with
  | zero => intro s; simp [processEvents, batchMessagesFrom]
  | succ n ih =>
    intro s
    rw [List.replicate_succ]
    have hstep :
        processEvents true s (OutputEvent.out l :: List.replicate n (OutputEvent.out l)) =
          processEvents true (onStdoutLine true s l) (List.replicate n (OutputEvent.out l)) := rfl
    rw [hstep]
    obtain ⟨ih1, ih2⟩ := ih (onStdoutLine true s l)
    constructor
    · rw [ih1, onStdoutLine_true_lineCount s l hl]
      omega
    · rw [ih2, onStdoutLine_true_progress s l hl, onStdoutLine_true_lineCount s l hl]
      rw [List.append_assoc]
      congr 1
      exact (batchMessagesFrom_succ_left s.lineCount n).symm

theorem batchMessagesFrom_zero (n : Nat) :
    batchMessagesFrom 0 n =
      (List.range (n / 5)).map
        (fun k => "Compiling... (" ++ toString (5 * k + 5) ++ " lines)") := by
  induction n with
  | zero => rfl
  | succ n ih =>
    have hsingle : List.filterMap
        (fun j => if (0 + j + 1) % 5 = 0
          then some ("Compiling... (" ++ toString (0 + j + 1) ++ " lines)") else none) [n] =
        (if (n + 1) % 5 = 0 then ["Compiling... (" ++ toString (n + 1) ++ " lines)"] else []) := by
      have hc : 0 + n + 1 = n + 1 := by omega
      simp only [List.filterMap_cons, List.filterMap_nil, hc]
      by_cases h5 : (n + 1) % 5 = 0
      · rw [if_pos h5, if_pos h5]
      · rw [if_neg h5, if_neg h5]
    unfold batchMessagesFrom at ih ⊢
    rw [List.range_succ, List.filterMap_append, ih, hsingle]
    by_cases h5 : (n + 1) % 5 = 0
    · have hdiv : (n + 1) / 5 = n / 5 + 1 := by omega
      have harith : 5 * (n / 5) + 5 = n + 1 := by omega
      rw [if_pos h5, hdiv, List.range_succ, List.map_append]
      congr 1
      simp only [List.map_cons, List.map_nil]
      rw [harith]
    · have hdiv : (n + 1) / 5 = n / 5 := by omega
      rw [if_neg h5, hdiv, List.append_nil]

theorem processEvents_err_last (s : StreamState) (es : List OutputEvent) (l : String)
    (hl : l ≠ "") :
    (processEvents true s (es ++ [OutputEvent.err l])).progress =
      (processEvents true s es).progress ++ ["Error: " ++ l] ∧
    (processEvents true s (es ++ [OutputEvent.err l])).lineCount =
      (processEvents true s es).lineCount := by
  rw [processEvents_append]
  have hsingle : ∀ t : StreamState,
      processEvents true t [OutputEvent.err l] = onStderrLine true t l := fun t => rfl
  rw [hsingle]
  unfold onStderrLine
  rw [if_pos ⟨rfl, hl⟩]
  exact ⟨rfl, rfl⟩

theorem execPhase_snd_launched (env : BuilderEnv) (b : CppModuleBuilder) (cmd : String)
    (hcb : b.hasProgressCallback = true) (h : (env.run cmd).launched = true) :
    (execPhase env b cmd).2 = processEvents true initialStreamState (env.run cmd).events := by
  unfold execPhase executeCommand
  rw [if_pos h, hcb]
  rfl

/-- Counterexample for C7. The concrete 23-line stdout scenario of the claim:
    the full progress trace of `compileModule` ends with the fourth batch
    message `Compiling... (20 lines)`; there are exactly 4 stdout-batch
    invocations and **no** additional final-summary callback, contradicting the
    claimed "plus a final summary" invocation. -/
theorem C7_counterexample :
    (compileModule envStdout23 builderA "src.cpp" "out.so" "c++17").2.progress =
      ["Checking C++ compiler availability...",
       "Using clang from AppImage: /opt/bundle/clang++",
       "Preparing compilation command...",
       "Compilation of module ...",
       "Compiling... (5 lines)", "Compiling... (10 lines)",
       "Compiling... (15 lines)", "Compiling... (20 lines)"] ∧
    ((compileModule envStdout23 builderA "src.cpp" "out.so" "c++17").2.progress.filter
        (fun m => strStartsWith m "Compiling... (")).length = 4 ∧
    (compileModule envStdout23 builderA "src.cpp" "out.so" "c++17").2.progress.getLast? =
      some "Compiling... (20 lines)" :=
  ⟨by decide, by decide, by decide⟩

/-- Amended claim C7. With a progress callback installed: (i) a stream of `n`
    non-empty stdout lines produces exactly `n / 5` batched callback messages,
    one after every 5th line, carrying the cumulative line counter (so 23 lines
    give exactly 4, after lines 5, 10, 15 and 20 — and no final summary);
    (ii) a non-empty stderr line always triggers exactly one immediate,
    individual callback message, leaving the stdout batching counter untouched;
    (iii) the orchestrator appends nothing after the streamed messages: the
    whole trace is the pre-run messages followed by the streamed ones. -/
theorem C7_amended_batch5_stderr_immediate :
    (∀ l : String, l ≠ "" → ∀ n : Nat,
      (processEvents true initialStreamState (List.replicate n (OutputEvent.out l))).progress =
        (List.range (n / 5)).map
          (fun k => "Compiling... (" ++ toString (5 * k + 5) ++ " lines)")) ∧
    (∀ (s : StreamState) (es : List OutputEvent) (l : String), l ≠ "" →
      (processEvents true s (es ++ [OutputEvent.err l])).progress =
        (processEvents true s es).progress ++ ["Error: " ++ l] ∧
      (processEvents true s (es ++ [OutputEvent.err l])).lineCount =
        (processEvents true s es).lineCount) ∧
    (∀ (env : BuilderEnv) (b : CppModuleBuilder)
        (sourceFile outputFile cppStandard cmd0 : String),
      b.hasProgressCallback = true →
      (compileModule env b sourceFile outputFile cppStandard).2.launches = [cmd0] →
      (env.run cmd0).launched = true →
      ∃ pre : List String,
        (compileModule env b sourceFile outputFile cppStandard).2.progress =
          pre ++ (processEvents true initialStreamState (env.run cmd0).events).progress) := by
  refine ⟨?_, ?_, ?_⟩
  · intro l hl n
    have h := (processEvents_replicate_out l hl n initialStreamState).2
    rw [h]
    have h0 : initialStreamState.progress = [] := rfl
    have h1 : initialStreamState.lineCount = 0 := rfl
    rw [h0, h1, batchMessagesFrom_zero]
    rfl
  · intro s es l hl
    exact processEvents_err_last s es l hl
  · intro env b sourceFile outputFile cppStandard cmd0 hcb hlaunch hrun
    by_cases h1 : env.fs.pathExists sourceFile = false
    · rw [compileModule_srcMissing_eq env b sourceFile outputFile cppStandard h1] at hlaunch
      exact absurd hlaunch (by simp)
    · have h1p : env.fs.pathExists sourceFile = true := by
        revert h1
        cases env.fs.pathExists sourceFile <;> simp
      have main :
          ∀ (ac : String) (probes prog : List String),
            compileModule env b sourceFile outputFile cppStandard =
              compileWithCompiler env b { sourceFile := sourceFile, outputFile := outputFile }
                sourceFile outputFile cppStandard ac probes prog →
            ∃ pre : List String,
              (compileModule env b sourceFile outputFile cppStandard).2.progress =
                pre ++ (processEvents true initialStreamState (env.run cmd0).events).progress := by
        intro ac probes prog heq
        by_cases hac : ac = ""
        · rw [hac] at heq
          rw [heq, compileWithCompiler_noCompiler_eq] at hlaunch
          exact absurd hlaunch (by simp)
        · rw [heq, compileWithCompiler_run_eq env b _ sourceFile outputFile cppStandard ac
            probes prog hac] at hlaunch ⊢
          have hcmd : builtCommand env b ac sourceFile outputFile cppStandard = cmd0 := by
            simpa using hlaunch
          refine ⟨prog ++ (if b.hasProgressCallback then ["Preparing compilation command..."]
            else []) ++ (if b.hasProgressCallback then ["Compilation of module ..."] else []),
            ?_⟩
          have hexec := execPhase_snd_launched env b cmd0 hcb hrun
          rw [hcmd, hexec]
      by_cases h2 : getClangToolchainPath env.clangEnvPath env.clangCMakeDef env.fs = ""
      · exact main _ _ _ (compileModule_probe_eq env b sourceFile outputFile cppStandard h1p h2)
      · exact main _ _ _ (compileModule_bundled_eq env b sourceFile outputFile cppStandard h1p h2)

/-- Witness for the amended C7. 23 non-empty stdout lines give exactly the four
    batch messages after lines 5, 10, 15, 20; the spec's concrete scenario
    (5 stdout lines + 1 stderr line) gives one throttled stdout message and one
    immediate stderr message; and the end-to-end trace decomposes as pre-run
    messages followed by the streamed messages. -/
theorem C7_amended_witness :
    (processEvents true initialStreamState
        (List.replicate 23 (OutputEvent.out "x"))).progress =
      ["Compiling... (5 lines)", "Compiling... (10 lines)",
       "Compiling... (15 lines)", "Compiling... (20 lines)"] ∧
    (processEvents true initialStreamState
        (List.replicate 5 (OutputEvent.out "a") ++ [OutputEvent.err "err1"])).progress =
      ["Compiling... (5 lines)", "Error: err1"] ∧
    (∃ pre : List String,
      (compileModule envStdout23 builderA "src.cpp" "out.so" "c++17").2.progress =
        pre ++ (processEvents true initialStreamState
          (envStdout23.run ((compileModule envStdout23 builderA "src.cpp" "out.so"
            "c++17").2.launches.headD "")).events).progress) := by
  refine ⟨?_, ?_, ?_⟩
  · rw [C7_amended_batch5_stderr_immediate.1 "x" (by decide) 23]
    decide
  · rw [(C7_amended_batch5_stderr_immediate.2.1 initialStreamState
      (List.replicate 5 (OutputEvent.out "a")) "err1" (by decide)).1]
    rw [C7_amended_batch5_stderr_immediate.1 "a" (by decide) 5]
    decide
  · exact C7_amended_batch5_stderr_immediate.2.2 envStdout23 builderA "src.cpp" "out.so" "c++17"
      ((compileModule envStdout23 builderA "src.cpp" "out.so" "c++17").2.launches.headD "")
      (by decide) (by decide) (by decide)

end OOpenCalViewer
